import Mathlib

/-!
Verification of the V4L2 capture core: a shallow embedding of
`src/thread_safe_queue.h` (ThreadSafeQueue) and `src/CameraCapture.cpp`
(CameraCapture), with theorems settling the specification claims about
buffer-pool lifecycle, allocation error paths, and queue termination
semantics.

Modelling conventions:
- Device/driver interactions (ioctl, mmap, select) are external inputs; each
  run of a camera operation is parameterised by a record of the driver's
  responses, so the embedded functions are pure and executable.
- The queue's condition-variable waits are modelled under single-thread
  semantics: a wait whose predicate already holds proceeds immediately
  (no wait); a wait whose predicate does not hold cannot be satisfied by
  another thread inside one embedded call, so a finite timeout elapses and
  an infinite wait blocks. The claims proved here only concern runs where
  the predicate is decided at entry (terminated queues, unbounded pushes),
  where this semantics agrees with the concurrent one.
-/

namespace TSQ

/-- State of a `ThreadSafeQueue<T>`: the underlying `std::queue` contents
(front = head of list), the capacity bound `max_size_` (0 = unbounded) and
the `terminated_` flag. -/
structure Queue (α : Type) where
  items : List α
  max_size : Nat
  terminated : Bool
  deriving Repr, DecidableEq

/-- Outcome of `ThreadSafeQueue::push`: success or failure with the
resulting queue state and whether the call had to wait, or an infinite
block (infinite timeout with an unsatisfiable predicate). -/
inductive PushResult (α : Type) where
  | ok (state : Queue α) (waited : Bool)
  | fail (state : Queue α) (waited : Bool)
  | blocked
  deriving Repr, DecidableEq

/-- Outcome of `ThreadSafeQueue::pop`. -/
inductive PopResult (α : Type) where
  | ok (item : α) (state : Queue α) (waited : Bool)
  | fail (state : Queue α) (waited : Bool)
  | blocked
  deriving Repr, DecidableEq

/-- Model of `ThreadSafeQueue::push(item, timeout_ms)` (thread_safe_queue.h lines
43-74): for a bounded queue, wait on `not_full_` for
`queue_.size() < max_size_ || terminated_`; then fail if `terminated_`,
otherwise append the item. `timeout_ms < 0` means wait indefinitely. -/
def push {α : Type} (q : Queue α) (item : α) (timeout_ms : Int) : PushResult α :=
  if 0 < q.max_size ∧ ¬(q.items.length < q.max_size ∨ q.terminated = true) then
    -- predicate false at entry: single-thread semantics, the wait cannot
    -- be satisfied; a finite timeout elapses, an infinite wait blocks
    if 0 ≤ timeout_ms then PushResult.fail q true else PushResult.blocked
  else
    if q.terminated then PushResult.fail q false
    else PushResult.ok { q with items := q.items ++ [item] } false

/-- Model of `ThreadSafeQueue::pop(item, timeout_ms)` (thread_safe_queue.h lines
119-149): wait on `not_empty_` for `!queue_.empty() || terminated_`; then
fail if `terminated_ && queue_.empty()`, otherwise take the front element. -/
def pop {α : Type} (q : Queue α) (timeout_ms : Int) : PopResult α :=
  if ¬(q.items.isEmpty = false ∨ q.terminated = true) then
    if 0 ≤ timeout_ms then PopResult.fail q true else PopResult.blocked
  else
    if q.terminated = true ∧ q.items.isEmpty = true then PopResult.fail q false
    else
      match q.items with
      | [] => PopResult.fail q false
      | x :: rest => PopResult.ok x { q with items := rest } false

/-- Model of `ThreadSafeQueue::terminate()` (thread_safe_queue.h lines 189-196):
set `terminated_` and wake all waiters (waking is implicit in the
single-thread wait semantics). -/
def terminate {α : Type} (q : Queue α) : Queue α :=
  { q with terminated := true }

end TSQ

namespace Cam

/-- The three values a mapped-region pointer can take in
`CameraCapture::Buffer::start`: null (the `resize` default), the
`MAP_FAILED` sentinel written when `mmap` fails, or a real mapping. -/
inductive Ptr where
  | null
  | mapFailed
  | mapped (addr : Nat)
  deriving Repr, DecidableEq

/-- Whether a pointer denotes a live memory mapping. -/
def Ptr.isMapped : Ptr → Bool
  | Ptr.mapped _ => true
  | _ => false

/-- A pool slot, mirroring `CameraCapture::Buffer` (CameraCapture.h lines
207-211): mapped region start and length, and the exported DMA-BUF fd. -/
structure Buffer where
  start : Ptr
  length : Nat
  dma_fd : Int
  deriving Repr, DecidableEq

/-- Value-initialised slot produced by `buffers_.resize(req.count)`:
null start, zero length, zero fd. -/
def defaultBuffer : Buffer := ⟨Ptr.null, 0, 0⟩

/-- The construction parameters of `CameraCapture` (constructor,
CameraCapture.cpp lines 25-34): device path, width, height, fps and pixel
format. This is the entire configuration surface. -/
structure Config where
  device_path : String
  width : Nat
  height : Nat
  fps : Nat
  pixel_format : Nat
  deriving Repr, DecidableEq

/-- One run's worth of driver responses to the device operations issued by
`initialize`/`request_buffers`. Functions are indexed by buffer index. -/
structure DevBehavior where
  /-- whether `open` succeeds -/
  openOk : Bool
  /-- whether the `VIDIOC_QUERYCAP` ioctl succeeds -/
  querycapOk : Bool
  /-- capability word has `V4L2_CAP_VIDEO_CAPTURE` -/
  capVideoCapture : Bool
  /-- capability word has `V4L2_CAP_STREAMING` -/
  capStreaming : Bool
  /-- result of `VIDIOC_S_FMT`: `none` = ioctl fails; `some (w, h, pf, bytesperline)`
  = the format the driver actually set (possibly coerced) -/
  sfmtResult : Option (Nat × Nat × Nat × Nat)
  /-- whether the `VIDIOC_S_PARM` (frame rate) ioctl succeeds -/
  sparmOk : Bool
  /-- result of `VIDIOC_REQBUFS`: `none` = ioctl fails; `some count` = granted count -/
  reqbufsResult : Option Nat
  /-- whether `VIDIOC_QUERYBUF` for index i succeeds -/
  querybufOk : Nat → Bool
  /-- buffer length reported by `VIDIOC_QUERYBUF` for index i -/
  bufLen : Nat → Nat
  /-- whether the `mmap` of buffer i succeeds -/
  mmapOk : Nat → Bool
  /-- address returned by a successful `mmap` of buffer i -/
  mmapAddr : Nat → Nat
  /-- result of `VIDIOC_EXPBUF` for index i: `none` = fails; `some fd` = DMA-BUF fd -/
  expbufFd : Nat → Option Nat
  /-- initial `VIDIOC_QBUF` of buffer i succeeds -/
  qbufOk : Nat → Bool

/-- The fd stored into `buffers_[i].dma_fd` by `export_dma_buf`
(CameraCapture.cpp lines 364-376): the exported fd, or -1 on failure. -/
def fdOf (dev : DevBehavior) (i : Nat) : Int :=
  match dev.expbufFd i with
  | some f => (f : Int)
  | none => -1

/-- One iteration of the mapping loop of `request_buffers`
(CameraCapture.cpp lines 215-244) for buffer i: QUERYBUF, record length,
mmap (failure leaves the `MAP_FAILED` sentinel in the slot), then the
best-effort DMA-BUF export. Returns (continue?, resulting slot). -/
def mapBuffer (dev : DevBehavior) (i : Nat) : Bool × Buffer :=
  if dev.querybufOk i = false then (false, defaultBuffer)
  else if dev.mmapOk i = false then (false, ⟨Ptr.mapFailed, dev.bufLen i, 0⟩)
  else (true, ⟨Ptr.mapped (dev.mmapAddr i), dev.bufLen i, fdOf dev i⟩)

/-- The slot produced by a fully successful `mapBuffer` at index i. -/
def mappedBuffer (dev : DevBehavior) (i : Nat) : Buffer :=
  ⟨Ptr.mapped (dev.mmapAddr i), dev.bufLen i, fdOf dev i⟩

/-- The mapping loop of `request_buffers` over the given indices; an early
return on failure leaves the slots not yet visited at their `resize`
defaults. Returns (success, final contents of `buffers_`). -/
def mapLoop (dev : DevBehavior) : List Nat → Bool × List Buffer
  | [] => (true, [])
  | i :: rest =>
    let (ok, b) := mapBuffer dev i
    if ok then
      let r := mapLoop dev rest
      (r.1, b :: r.2)
    else
      (false, b :: List.replicate rest.length defaultBuffer)

/-- The enqueue loop of `request_buffers` (CameraCapture.cpp lines
247-258): QBUF each index in order, aborting on the first failure.
Returns (success, indices actually enqueued to the device). -/
def enqueueLoop (dev : DevBehavior) : List Nat → Bool × List Nat
  | [] => (true, [])
  | i :: rest =>
    if dev.qbufOk i then
      let r := enqueueLoop dev rest
      (r.1, i :: r.2)
    else (false, [])

/-- Result of `request_buffers`: the returned bool, the final contents of
`buffers_`, and the indices enqueued to the device queue. -/
structure RBResult where
  success : Bool
  buffers : List Buffer
  queued : List Nat
  deriving Repr, DecidableEq

/-- Model of `CameraCapture::request_buffers` (CameraCapture.cpp lines 194-261):
REQBUFS asking for 4 buffers; fail if the ioctl fails or fewer than 2 are
granted; resize the pool to the granted count; map every buffer; enqueue
every buffer. -/
def request_buffers (dev : DevBehavior) : RBResult :=
  match dev.reqbufsResult with
  | none => ⟨false, [], []⟩
  | some count =>
    if count < 2 then ⟨false, [], []⟩
    else
      let m := mapLoop dev (List.range count)
      if m.1 then
        let e := enqueueLoop dev (List.range count)
        ⟨e.1, m.2, e.2⟩
      else ⟨false, m.2, []⟩

/-- The buffer count written into `req.count` by `request_buffers`
(CameraCapture.cpp line 198): the literal 4, taking nothing from the
configuration. -/
def request_count (_cfg : Config) : Nat := 4

/-- Result of `initialize`: the returned bool, `stride_` when it was
assigned, and the pool/device-queue contents from `request_buffers`. -/
structure InitResult where
  success : Bool
  stride : Option Nat
  buffers : List Buffer
  queued : List Nat
  deriving Repr, DecidableEq

/-- Model of `CameraCapture::initialize` (CameraCapture.cpp lines 47-114): open,
QUERYCAP, capability checks, S_FMT with exact-match verification, record
`stride_`, S_PARM (failure returns false), then `request_buffers`. -/
def initCapture (cfg : Config) (dev : DevBehavior) : InitResult :=
  if dev.openOk = false then ⟨false, none, [], []⟩
  else if dev.querycapOk = false then ⟨false, none, [], []⟩
  else if dev.capVideoCapture = false then ⟨false, none, [], []⟩
  else if dev.capStreaming = false then ⟨false, none, [], []⟩
  else
    match dev.sfmtResult with
    | none => ⟨false, none, [], []⟩
    | some (w, h, pf, bpl) =>
      if w ≠ cfg.width ∨ h ≠ cfg.height ∨ pf ≠ cfg.pixel_format then
        ⟨false, none, [], []⟩
      else if dev.sparmOk = false then ⟨false, some bpl, [], []⟩
      else
        let r := request_buffers dev
        ⟨r.success, some bpl, r.buffers, r.queued⟩

/-- A pool together with the device's buffer queue: the contents of
`buffers_` and the indices currently enqueued to (owned by) the driver.
A buffer whose index is on the device queue is the Free/driver-owned state
of the spec; one dequeued and not yet re-queued is InFlight. -/
structure PoolDevState where
  buffers : List Buffer
  queued : List Nat
  deriving Repr, DecidableEq

/-- Modelled from the spec: the `VIDIOC_QBUF` control operation of the
external V4L2 capture-device boundary (spec section 6). The driver accepts
an enqueue of a valid buffer index that is not already on its queue and
appends it; enqueueing an out-of-range index or a buffer already on the
queue fails with `EINVAL` and leaves the queue unchanged. -/
def qbuf_ioctl (s : PoolDevState) (i : Nat) : Option PoolDevState :=
  if i < s.buffers.length ∧ i ∉ s.queued then
    some { s with queued := s.queued ++ [i] }
  else none

/-- Model of `CameraCapture::return_buffer_to_queue(index)` (CameraCapture.cpp
lines 345-362): reject a negative or too-large index, then issue
`VIDIOC_QBUF` for it; return whether the operation succeeded, with the
resulting pool/device state. -/
def return_buffer_to_queue (s : PoolDevState) (index : Int) :
    Bool × PoolDevState :=
  if index < 0 ∨ s.buffers.length ≤ index.toNat then (false, s)
  else
    match qbuf_ioctl s index.toNat with
    | some s2 => (true, s2)
    | none => (false, s)

/-- Outcome of the `select` readiness wait in `get_frame`
(CameraCapture.cpp lines 290-300). -/
inductive SelectResult where
  | selErrIntr
  | selErrOther
  | selTimeout
  | selReady
  deriving Repr, DecidableEq

/-- Fields of the `v4l2_buffer` returned by a successful `VIDIOC_DQBUF`. -/
structure DqbufData where
  index : Nat
  bytesused : Nat
  timestamp : Nat
  sequence : Nat
  deriving Repr, DecidableEq

/-- Driver responses for one `get_frame` call: the `select` outcome and
the `VIDIOC_DQBUF` result (`none` = the ioctl fails, e.g. `EAGAIN`). -/
structure CaptureDev where
  sel : SelectResult
  dqbufResult : Option DqbufData
  deriving Repr, DecidableEq

/-- The `CameraFrame` built by `get_frame` (CameraCapture.h lines 37-51),
without the release closure (which captures `buf_index`). -/
structure Frame where
  camera_id : Int
  buf_index : Nat
  fd : Int
  dataPtr : Ptr
  length : Nat
  bytes_used : Nat
  width : Nat
  height : Nat
  stride : Nat
  pixel_format : Nat
  timestamp : Nat
  sequence : Nat
  deriving Repr, DecidableEq

/-- Model of `CameraCapture::get_frame` (CameraCapture.cpp lines 281-343): wait for
readiness with `select` (interrupt, error and timeout all return false),
`VIDIOC_DQBUF`, revalidate the returned index against `buffers_.size()`,
and only then fill a `CameraFrame` from the pool slot. `none` models the
false return (no frame produced). -/
def get_frame (camera_id : Int) (cfg : Config) (stride : Nat)
    (buffers : List Buffer) (dev : CaptureDev) : Option Frame :=
  match dev.sel with
  | SelectResult.selErrIntr => none
  | SelectResult.selErrOther => none
  | SelectResult.selTimeout => none
  | SelectResult.selReady =>
    match dev.dqbufResult with
    | none => none
    | some d =>
      if h : d.index < buffers.length then
        let b := buffers.get ⟨d.index, h⟩
        some ⟨camera_id, d.index, b.dma_fd, b.start, b.length, d.bytesused,
              cfg.width, cfg.height, stride, cfg.pixel_format,
              d.timestamp, d.sequence⟩
      else none

end Cam

namespace CamLoop

/-- An observable action of one iteration of `capture_thread`. -/
inductive LoopAction where
  | deliver (idx : Nat)
  | release (idx : Nat)
  | sleep_retry
  deriving Repr, DecidableEq

/-- One iteration of `CameraCapture::capture_thread` (CameraCapture.cpp
lines 155-168): if `get_frame` succeeded (yielding a frame with the given
buffer index) invoke the callback when one is set — the
`return_buffer_to_queue` call is commented out — otherwise sleep and
retry. -/
def capture_iteration (frameResult : Option Nat) (hasCallback : Bool) :
    List LoopAction :=
  match frameResult with
  | some idx => if hasCallback then [LoopAction.deliver idx] else []
  | none => [LoopAction.sleep_retry]

end CamLoop

/-- Claim C4: once terminate() has been called, push returns failure
immediately — no wait, no block — regardless of the timeout, and the queue
state (in particular its contents) is unchanged. -/
theorem C4_push_after_terminate_fails {α : Type} (q : TSQ.Queue α)
    (item : α) (timeout_ms : Int) :
    TSQ.push (TSQ.terminate q) item timeout_ms =
      TSQ.PushResult.fail (TSQ.terminate q) false := by
  simp [TSQ.push, TSQ.terminate]

/-- Claim C5: after terminate(), pop still drains the previously pushed
items in FIFO order (it returns the front item and leaves the tail, for
any timeout), and fails exactly once the queue is empty. -/
theorem C5_pop_after_terminate_drains {α : Type} (q : TSQ.Queue α)
    (timeout_ms : Int) :
    TSQ.pop (TSQ.terminate q) timeout_ms =
      match q.items with
      | [] => TSQ.PopResult.fail (TSQ.terminate q) false
      | x :: rest => TSQ.PopResult.ok x ⟨rest, q.max_size, true⟩ false := by
  cases h : q.items with
  | nil => simp [TSQ.pop, TSQ.terminate, h]
  | cons x rest => simp [TSQ.pop, TSQ.terminate, h]

/-- Claim C10: on an unbounded queue (max_size = 0), push never waits and
never blocks, ignores the timeout entirely, and succeeds exactly when the
queue has not been terminated (appending the item at the back). -/
theorem C10_unbounded_push {α : Type} (items : List α) (term : Bool)
    (item : α) (timeout_ms : Int) :
    TSQ.push (⟨items, 0, term⟩ : TSQ.Queue α) item timeout_ms =
      if term then TSQ.PushResult.fail ⟨items, 0, term⟩ false
      else TSQ.PushResult.ok ⟨items ++ [item], 0, term⟩ false := by
  cases term <;> simp [TSQ.push]

/-- Claim C1: releasing an out-of-range index, or an index whose buffer is
already Free (already on the device queue — a second release of the same
frame), returns false and leaves the pool and device queue exactly as they
were: nothing is re-enqueued and the pool size is unchanged. The in-range
already-Free case is rejected by the modelled V4L2 driver (`qbuf_ioctl`),
not by any pool-side state check in the code. -/
theorem C1_release_invalid_rejected (s : Cam.PoolDevState) (index : Int)
    (h : index < 0 ∨ s.buffers.length ≤ index.toNat ∨
      index.toNat ∈ s.queued) :
    Cam.return_buffer_to_queue s index = (false, s) := by
  unfold Cam.return_buffer_to_queue Cam.qbuf_ioctl
  rcases h with h | h | h
  · simp [h]
  · simp [h]
  · by_cases hb : index < 0 ∨ s.buffers.length ≤ index.toNat
    · simp [hb]
    · rw [if_neg hb]
      have hq : ¬(index.toNat < s.buffers.length ∧ index.toNat ∉ s.queued) := by
        intro hc
        exact hc.2 h
      simp [hq]

/-- A concrete 4-buffer pool in which buffer 2 is already Free (on the
device queue). -/
def poolC1 : Cam.PoolDevState :=
  ⟨List.replicate 4 Cam.defaultBuffer, [2]⟩

/-- Witness for C1: a second release of buffer 2 (already Free) in a
4-buffer pool is rejected and changes nothing. -/
theorem C1_release_invalid_rejected_witness :
    ((2 : Int) < 0 ∨ poolC1.buffers.length ≤ (2 : Int).toNat ∨
      (2 : Int).toNat ∈ poolC1.queued) ∧
    Cam.return_buffer_to_queue poolC1 2 = (false, poolC1) :=
  ⟨by decide, C1_release_invalid_rejected poolC1 2 (by decide)⟩

/-- Claim C8: if `VIDIOC_DQBUF` hands back a buffer index outside the
pool, `get_frame` fails (returns no frame) rather than building a
`CameraFrame` from out-of-range pool data. -/
theorem C8_dequeue_index_revalidated (camera_id : Int) (cfg : Cam.Config)
    (stride : Nat) (buffers : List Cam.Buffer) (dev : Cam.CaptureDev)
    (d : Cam.DqbufData) (hd : dev.dqbufResult = some d)
    (hi : buffers.length ≤ d.index) :
    Cam.get_frame camera_id cfg stride buffers dev = none := by
  cases hsel : dev.sel <;>
    simp [Cam.get_frame, hsel, hd, Nat.not_lt.mpr hi]

/-- Driver responses in which the dequeue reports index 7 for a pool that
will only have 4 buffers. -/
def devC8 : Cam.CaptureDev :=
  ⟨Cam.SelectResult.selReady, some ⟨7, 614400, 0, 0⟩⟩

/-- A concrete configuration: /dev/video0, 640x480 YUYV at 30 fps. -/
def cfg640 : Cam.Config := ⟨"/dev/video0", 640, 480, 30, 1448695129⟩

/-- Witness for C8: with a 4-buffer pool and a dequeue reporting index 7,
no frame is produced. -/
theorem C8_dequeue_index_revalidated_witness :
    devC8.dqbufResult = some ⟨7, 614400, 0, 0⟩ ∧
    (List.replicate 4 Cam.defaultBuffer).length ≤ (7 : Nat) ∧
    Cam.get_frame 0 cfg640 1280 (List.replicate 4 Cam.defaultBuffer) devC8 =
      none :=
  ⟨rfl, by decide,
    C8_dequeue_index_revalidated 0 cfg640 1280
      (List.replicate 4 Cam.defaultBuffer) devC8 ⟨7, 614400, 0, 0⟩ rfl
      (by decide)⟩

/-- Claim C7: if the driver coerces any of width, height or pixel format
to a different value (or `VIDIOC_S_FMT` itself fails the exact-match
check), `initialize` returns failure without allocating any buffers. -/
theorem C7_exact_format_required (cfg : Cam.Config) (dev : Cam.DevBehavior)
    (w h pf bpl : Nat)
    (h1 : dev.openOk = true) (h2 : dev.querycapOk = true)
    (h3 : dev.capVideoCapture = true) (h4 : dev.capStreaming = true)
    (h5 : dev.sfmtResult = some (w, h, pf, bpl))
    (h6 : w ≠ cfg.width ∨ h ≠ cfg.height ∨ pf ≠ cfg.pixel_format) :
    Cam.initCapture cfg dev = ⟨false, none, [], []⟩ := by
  simp [Cam.initCapture, h1, h2, h3, h4, h5, h6]

/-- Driver responses that coerce the requested 640x480 down to 320x240
and otherwise satisfy every request. -/
def devC7 : Cam.DevBehavior :=
  { openOk := true, querycapOk := true, capVideoCapture := true,
    capStreaming := true,
    sfmtResult := some (320, 240, 1448695129, 640),
    sparmOk := true, reqbufsResult := some 4,
    querybufOk := fun _ => true, bufLen := fun _ => 614400,
    mmapOk := fun _ => true, mmapAddr := fun i => 4096 * (i + 1),
    expbufFd := fun i => some (10 + i), qbufOk := fun _ => true }

/-- Witness for C7: a driver that coerces 640x480 to 320x240 makes
initialization fail with no buffers allocated. -/
theorem C7_exact_format_required_witness :
    devC7.sfmtResult = some (320, 240, 1448695129, 640) ∧
    ((320 : Nat) ≠ cfg640.width ∨ (240 : Nat) ≠ cfg640.height ∨
      (1448695129 : Nat) ≠ cfg640.pixel_format) ∧
    Cam.initCapture cfg640 devC7 = ⟨false, none, [], []⟩ :=
  ⟨rfl, by decide,
    C7_exact_format_required cfg640 devC7 320 240 1448695129 640
      rfl rfl rfl rfl rfl (by decide)⟩

/-- Driver responses in which everything succeeds except the frame-rate
request (`VIDIOC_S_PARM` fails). -/
def devC6 : Cam.DevBehavior :=
  { openOk := true, querycapOk := true, capVideoCapture := true,
    capStreaming := true,
    sfmtResult := some (640, 480, 1448695129, 1280),
    sparmOk := false, reqbufsResult := some 4,
    querybufOk := fun _ => true, bufLen := fun _ => 614400,
    mmapOk := fun _ => true, mmapAddr := fun i => 4096 * (i + 1),
    expbufFd := fun i => some (10 + i), qbufOk := fun _ => true }

/-- Counterexample to claim C6 as stated: with a driver that accepts the
format exactly but rejects the frame-rate request, `initialize` returns
failure with no buffers allocated — even though buffer allocation itself
would have succeeded on this driver. Frame-rate failure is fatal, not
best-effort. -/
theorem C6_counterexample :
    Cam.initCapture cfg640 devC6 = ⟨false, some 1280, [], []⟩ ∧
    (Cam.request_buffers devC6).success = true := by
  decide

/-- Claim C6 amended: failure of the frame-rate set request is fatal to
`initialize` — it returns false immediately and never proceeds to buffer
allocation (no buffers, nothing enqueued). -/
theorem C6_sparm_failure_fatal (cfg : Cam.Config) (dev : Cam.DevBehavior)
    (bpl : Nat)
    (h1 : dev.openOk = true) (h2 : dev.querycapOk = true)
    (h3 : dev.capVideoCapture = true) (h4 : dev.capStreaming = true)
    (h5 : dev.sfmtResult =
      some (cfg.width, cfg.height, cfg.pixel_format, bpl))
    (h6 : dev.sparmOk = false) :
    Cam.initCapture cfg dev = ⟨false, some bpl, [], []⟩ := by
  simp [Cam.initCapture, h1, h2, h3, h4, h5, h6]

/-- Witness for the amended C6 on the concrete driver devC6. -/
theorem C6_sparm_failure_fatal_witness :
    devC6.sparmOk = false ∧
    Cam.initCapture cfg640 devC6 = ⟨false, some 1280, [], []⟩ :=
  ⟨rfl, C6_sparm_failure_fatal cfg640 devC6 1280 rfl rfl rfl rfl rfl rfl⟩

/-- Counterexample to claim C9 as stated: two configurations differing in
every field (device, resolution, rate, pixel format) lead to the very same
requested buffer count 4 — the count written into `VIDIOC_REQBUFS` is the
hard-coded literal 4, and the construction configuration (`Config`) has no
pool-size parameter at all. -/
theorem C9_counterexample :
    Cam.request_count ⟨"/dev/video0", 640, 480, 30, 1448695129⟩ = 4 ∧
    Cam.request_count ⟨"/dev/video9", 1920, 1080, 60, 842094158⟩ = 4 := by
  constructor <;> rfl

/-- Claim C9 amended: the number of buffers requested from the device is
the hard-coded constant 4 for every configuration (the configuration
supplies only device path, width, height, fps and pixel format), and the
allocation fails, leaving an empty pool, whenever the driver grants fewer
than 2 buffers. -/
theorem C9_pool_size_hardcoded (cfg : Cam.Config) (dev : Cam.DevBehavior)
    (count : Nat) :
    Cam.request_count cfg = 4 ∧
    (dev.reqbufsResult = some count → count < 2 →
      Cam.request_buffers dev = ⟨false, [], []⟩) := by
  refine ⟨rfl, fun h1 h2 => ?_⟩
  simp [Cam.request_buffers, h1, h2]

/-- A driver that grants only 1 buffer. -/
def devC9 : Cam.DevBehavior :=
  { openOk := true, querycapOk := true, capVideoCapture := true,
    capStreaming := true,
    sfmtResult := some (640, 480, 1448695129, 1280),
    sparmOk := true, reqbufsResult := some 1,
    querybufOk := fun _ => true, bufLen := fun _ => 614400,
    mmapOk := fun _ => true, mmapAddr := fun i => 4096 * (i + 1),
    expbufFd := fun i => some (10 + i), qbufOk := fun _ => true }

/-- Witness for the amended C9: the constant count, and failure with an
empty pool when only 1 buffer is granted. -/
theorem C9_pool_size_hardcoded_witness :
    Cam.request_count cfg640 = 4 ∧
    Cam.request_buffers devC9 = ⟨false, [], []⟩ :=
  ⟨(C9_pool_size_hardcoded cfg640 devC9 1).1,
    (C9_pool_size_hardcoded cfg640 devC9 1).2 rfl (by decide)⟩

/-- The mapping loop, run on indices `pre ++ f :: rest` where every index
in `pre` maps successfully and `mmap` fails at `f`: it stops at `f`,
reports failure, and leaves the slots of `pre` fully mapped, slot `f`
holding the `MAP_FAILED` sentinel, and the rest at their defaults. -/
theorem mapLoop_mmap_fail (dev : Cam.DevBehavior) (f : Nat)
    (rest : List Nat) (hqf : dev.querybufOk f = true)
    (hmf : dev.mmapOk f = false) :
    ∀ pre : List Nat,
      (∀ j ∈ pre, dev.querybufOk j = true ∧ dev.mmapOk j = true) →
      Cam.mapLoop dev (pre ++ f :: rest) =
        (false, pre.map (Cam.mappedBuffer dev) ++
          (⟨Cam.Ptr.mapFailed, dev.bufLen f, 0⟩ : Cam.Buffer) ::
            List.replicate rest.length Cam.defaultBuffer)
  | [], _ => by
    simp [Cam.mapLoop, Cam.mapBuffer, hqf, hmf]
  | i :: pre, hgood => by
    have hi := hgood i (by simp)
    have ih := mapLoop_mmap_fail dev f rest hqf hmf pre
      (fun j hj => hgood j (by simp [hj]))
    simp [Cam.mapLoop, Cam.mapBuffer, hi.1, hi.2, ih, Cam.mappedBuffer]

/-- Claim C2 amended: if `mmap` fails for buffer `f` (after buffers
0..f-1 mapped successfully), `request_buffers` aborts the allocation —
it returns failure and enqueues nothing to the device — but it does NOT
unmap the regions already mapped: buffers 0..f-1 remain mapped in the
pool (the allocation is not all-or-nothing). -/
theorem C2_mmap_failure_aborts_without_unmap (dev : Cam.DevBehavior)
    (count f : Nat)
    (h1 : dev.reqbufsResult = some count) (h2 : ¬count < 2)
    (h3 : f < count)
    (h4 : ∀ j, j < f → dev.querybufOk j = true ∧ dev.mmapOk j = true)
    (h5 : dev.querybufOk f = true) (h6 : dev.mmapOk f = false) :
    Cam.request_buffers dev =
      ⟨false, (List.range f).map (Cam.mappedBuffer dev) ++
        (⟨Cam.Ptr.mapFailed, dev.bufLen f, 0⟩ : Cam.Buffer) ::
          List.replicate (count - f - 1) Cam.defaultBuffer, []⟩ := by
  obtain ⟨k, rfl⟩ : ∃ k, count = f + (k + 1) := ⟨count - f - 1, by omega⟩
  have hk1 : f + (k + 1) - f - 1 = k := by omega
  have hsplit : List.range (f + (k + 1)) =
      List.range f ++ f :: List.range' (f + 1) k := by
    rw [List.range_add, ← List.range'_eq_map_range, List.range'_succ]
  have hmap := mapLoop_mmap_fail dev f (List.range' (f + 1) k)
    h5 h6 (List.range f) (fun j hj => h4 j (List.mem_range.mp hj))
  rw [List.length_range'] at hmap
  simp only [Cam.request_buffers, h1, hk1]
  rw [if_neg h2, hsplit, hmap]
  simp

/-- Driver responses in which buffer 0 maps successfully and the `mmap`
of buffer 1 fails; everything else succeeds. -/
def devC2 : Cam.DevBehavior :=
  { openOk := true, querycapOk := true, capVideoCapture := true,
    capStreaming := true,
    sfmtResult := some (640, 480, 1448695129, 1280),
    sparmOk := true, reqbufsResult := some 4,
    querybufOk := fun _ => true, bufLen := fun _ => 614400,
    mmapOk := fun i => i == 0, mmapAddr := fun i => 4096 * (i + 1),
    expbufFd := fun i => some (10 + i), qbufOk := fun _ => true }

/-- Counterexample to claim C2 as stated: when the `mmap` of buffer 1
fails, `request_buffers` returns failure but buffer 0's region is still
mapped in the pool — the already-mapped regions are NOT unmapped, so the
allocation is not all-or-nothing. -/
theorem C2_counterexample :
    (Cam.request_buffers devC2).success = false ∧
    (Cam.request_buffers devC2).buffers.any
      (fun b => b.start.isMapped) = true := by
  decide

/-- Witness for the amended C2 on the concrete driver devC2: the run
aborts with nothing enqueued, buffer 0 left mapped, buffer 1 holding the
`MAP_FAILED` sentinel, and buffers 2 and 3 at their defaults. -/
theorem C2_mmap_failure_aborts_without_unmap_witness :
    (∀ j, j < 1 → devC2.querybufOk j = true ∧ devC2.mmapOk j = true) ∧
    devC2.mmapOk 1 = false ∧
    Cam.request_buffers devC2 =
      ⟨false, (List.range 1).map (Cam.mappedBuffer devC2) ++
        (⟨Cam.Ptr.mapFailed, devC2.bufLen 1, 0⟩ : Cam.Buffer) ::
          List.replicate (4 - 1 - 1) Cam.defaultBuffer, []⟩ :=
  ⟨by decide, by decide,
    C2_mmap_failure_aborts_without_unmap devC2 4 1 rfl (by decide)
      (by decide) (by decide) (by decide) (by decide)⟩

/-- Claim C3: no iteration of the capture loop ever performs a release
(re-enqueue) of a buffer — after a successful dequeue the frame is only
delivered to the callback; the release decision is left to the sink. -/
theorem C3_loop_never_releases (frameResult : Option Nat)
    (hasCallback : Bool) (i : Nat) :
    CamLoop.LoopAction.release i ∉
      CamLoop.capture_iteration frameResult hasCallback := by
  cases frameResult <;> cases hasCallback <;>
    simp [CamLoop.capture_iteration]
